import Mathlib

/-!
# Verification of the transactional e-mail delivery service

Shallow embedding of `server/services/emailService.ts` (the canonical
version, `src/unnamed/part_000`): the error classifier
(`categorizeError`, `isRetryableError`, `getErrorDetails`), the retry
scheduler (`sendWithRetry`), the delivery orchestrator (`sendEmail`,
`sendRegistrationApproved`) and the oversight notifier
(`notifySuperAdmin`).

JavaScript error values are modelled by `RawError`: the service receives
arbitrary thrown values, so the model covers `null`, `undefined`,
primitive strings/numbers/booleans and error-like objects carrying the
`responseCode` / numeric `code` fields that the classifier inspects.
A property access on `null`/`undefined` throws a `TypeError`; functions
that may perform such an access return `Option`/`Except`, with
`none`/`.error` standing for the thrown `TypeError`.
-/

/-- An error-like JavaScript object, as far as the classifier inspects it:
`str` is the result of `String(error)`, `responseCode` the structured
SMTP response-code field (absent = `undefined`), `codeNum` the `code`
field when it is a JS number (the `typeof error.code === 'number'` test),
`isError`/`message` support the `error instanceof Error ? error.message :
String(error)` idiom. -/
structure ErrObj where
  str : String
  responseCode : Option Nat := none
  codeNum : Option Int := none
  isError : Bool := false
  message : String := ""
deriving DecidableEq

/-- A raw JavaScript value handed to the error classifier. -/
inductive RawError where
  | vnull
  | vundefined
  | vstr (s : String)
  | vnum (n : Int)
  | vbool (b : Bool)
  | vobj (o : ErrObj)
deriving DecidableEq

/-- JavaScript truthiness of a `RawError` value. -/
def truthy : RawError → Bool
  | .vnull => false
  | .vundefined => false
  | .vstr s => decide (s ≠ "")
  | .vnum n => decide (n ≠ 0)
  | .vbool b => b
  | .vobj _ => true

/-- `null` / `undefined`: the values on which a property access throws. -/
def nullish : RawError → Bool
  | .vnull => true
  | .vundefined => true
  | _ => false

/-- The JavaScript `String(error)` conversion. -/
def jsString : RawError → String
  | .vnull => "null"
  | .vundefined => "undefined"
  | .vstr s => s
  | .vnum n => toString n
  | .vbool b => if b then "true" else "false"
  | .vobj o => o.str

/-- The `error.responseCode` field; `none` models JS `undefined`
(primitive receivers box and yield `undefined`, no throw). Only call
on non-nullish values. -/
def respCode : RawError → Option Nat
  | .vobj o => o.responseCode
  | _ => none

/-- The `error.code` field when it is a JS number. -/
def codeNum : RawError → Option Int
  | .vobj o => o.codeNum
  | _ => none

/-- `error instanceof Error ? error.message : String(error)`. -/
def errMessage : RawError → String
  | .vobj o => if o.isError then o.message else o.str
  | e => jsString e

/- ## String utilities mirroring the JS operations used by the service -/

/-- `leadsWith nd l`: `nd` is an initial segment of `l`. -/
def leadsWith : List Char → List Char → Bool
  | [], _ => true
  | _ :: _, [] => false
  | a :: as, b :: bs => a = b && leadsWith as bs

/-- `hasSub nd l`: `nd` occurs contiguously inside `l`. -/
def hasSub (nd : List Char) : List Char → Bool
  | [] => nd.isEmpty
  | b :: bs => leadsWith nd (b :: bs) || hasSub nd bs

/-- JS `hay.includes(nd)`. -/
def containsStr (hay nd : String) : Bool := hasSub nd.toList hay.toList

/-- JS `s.toLowerCase()`. All phrases the classifier matches are ASCII,
so ASCII case-mapping is the relevant fragment. -/
def toLowerStr (s : String) : String := String.mk (s.toList.map Char.toLower)

/-- JS regex `\w`: ASCII letters, digits, underscore. -/
def isWordChar (c : Char) : Bool := c.isAlphanum || c = '_'

/-- The left word-boundary test of `\b`: the previous character (if any)
is not a word character. -/
def boundaryOk : Option Char → Bool
  | none => true
  | some p => !isWordChar p

/-- After the lead digit: two more digits followed by a word boundary. -/
def tailOk : List Char → Bool
  | b :: c :: rest =>
    b.isDigit && c.isDigit &&
      (match rest with
       | [] => true
       | n :: _ => !isWordChar n)
  | _ => false

/-- Scanner for the JS regex `\b(L\d\d)\b` where `L` is the lead digit:
`prev` is the character before the current position. -/
def hasCodeToken (lead : Char) : Option Char → List Char → Bool
  | _, [] => false
  | prev, x :: rest =>
    (x = lead && boundaryOk prev && tailOk rest) || hasCodeToken lead (some x) rest

/-- `errorString.match(/\b(4\d\d)\b/)` succeeds. -/
def hasToken4xx (s : String) : Bool := hasCodeToken '4' none s.toList

/-- `errorString.match(/\b(5\d\d)\b/)` succeeds. -/
def hasToken5xx (s : String) : Bool := hasCodeToken '5' none s.toList

/- ## The error classifier (`categorizeError`, lines 67-114) -/

/-- Rule 1 of `categorizeError`: authentication phrases. -/
def authRule (s : String) : Bool :=
  containsStr s "authentication" || containsStr s "auth failed" ||
    containsStr s "invalid login" || containsStr s "535"

/-- Connection-refused phrases. -/
def connRefusedRule (s : String) : Bool :=
  containsStr s "econnrefused" || containsStr s "connection refused"

/-- Connection-reset phrases. -/
def connResetRule (s : String) : Bool :=
  containsStr s "econnreset" || containsStr s "connection reset"

/-- Abrupt-close phrase. -/
def socketRule (s : String) : Bool := containsStr s "socket hang up"

/-- Timeout phrases. -/
def timeoutRule (s : String) : Bool :=
  containsStr s "timeout" || containsStr s "etimedout"

/-- TLS/SSL/certificate phrases. -/
def tlsRule (s : String) : Bool :=
  containsStr s "tls" || containsStr s "ssl" || containsStr s "certificate"

/-- DNS-resolution phrases. -/
def dnsRule (s : String) : Bool :=
  containsStr s "enotfound" || containsStr s "getaddrinfo"

/-- Generic network phrase. -/
def networkRule (s : String) : Bool := containsStr s "network"

/-- Any of the eight textual rules of `categorizeError` matches. -/
def anyTextRule (s : String) : Bool :=
  authRule s || connRefusedRule s || connResetRule s || socketRule s ||
    timeoutRule s || tlsRule s || dnsRule s || networkRule s

/-- `error.responseCode` is truthy (`if (error.responseCode)`). -/
def respCodeTruthy (e : RawError) : Bool :=
  match respCode e with
  | some c => decide (c ≠ 0)
  | none => false

/-- `categorizeError(error)` (lines 67-114). Returns `none` when the
`error.responseCode` access at line 109 throws a `TypeError`, which
happens exactly when no textual rule matched and the value is
`null`/`undefined`. -/
def categorizeError (e : RawError) : Option String :=
  let s := toLowerStr (jsString e)
  if authRule s then some "AUTHENTICATION_FAILED"
  else if connRefusedRule s then some "CONNECTION_REFUSED"
  else if connResetRule s then some "CONNECTION_RESET"
  else if socketRule s then some "SOCKET_HANG_UP"
  else if timeoutRule s then some "TIMEOUT"
  else if tlsRule s then some "TLS_SSL_ERROR"
  else if dnsRule s then some "DNS_LOOKUP_FAILED"
  else if networkRule s then some "NETWORK_ERROR"
  else if nullish e then none
  else if respCodeTruthy e || hasToken5xx s then some "SMTP_PROTOCOL_ERROR"
  else some "UNKNOWN_ERROR"

/-- SMTP configuration read from the environment inside diagnostics. -/
structure SmtpEnv where
  host : Option String := none
  port : Option String := none
  senderFrom : Option String := none
deriving DecidableEq

/-- A JS template literal renders `undefined` for an absent variable. -/
def envStr : Option String → String
  | some s => s
  | none => "undefined"

/-- `getErrorDetails(error, category)` (lines 116-141). -/
def getErrorDetails (env : SmtpEnv) (e : RawError) (category : String) : String :=
  let errorMessage := errMessage e
  if category = "AUTHENTICATION_FAILED" then
    "Authentication failed. Check SMTP_USER and SMTP_PASS credentials. Error: " ++ errorMessage
  else if category = "CONNECTION_REFUSED" then
    "Connection refused to SMTP server " ++ envStr env.host ++ ":" ++ envStr env.port ++
      ". Verify host and port are correct."
  else if category = "CONNECTION_RESET" then
    "Connection was reset by the SMTP server. This may indicate firewall issues or server problems."
  else if category = "SOCKET_HANG_UP" then
    "Connection was unexpectedly closed by the server. Check server stability."
  else if category = "TIMEOUT" then
    "Connection timed out while trying to reach " ++ envStr env.host ++ ":" ++ envStr env.port ++
      ". Check network connectivity and firewall rules."
  else if category = "TLS_SSL_ERROR" then
    "TLS/SSL error. Check if port " ++ envStr env.port ++
      " requires SSL (465) or TLS (587). Error: " ++ errorMessage
  else if category = "DNS_LOOKUP_FAILED" then
    "DNS lookup failed for " ++ envStr env.host ++ ". Verify the SMTP_HOST is correct."
  else if category = "NETWORK_ERROR" then
    "Network error occurred: " ++ errorMessage
  else if category = "SMTP_PROTOCOL_ERROR" then
    "SMTP protocol error. Server response: " ++ errorMessage
  else errorMessage

/- ## Retryability (`isRetryableError`, lines 195-237) -/

/-- `error.responseCode` is truthy and `parseInt(String(responseCode))`
lies in 400..499 (lines 211-216). For a natural-number field,
`parseInt(String(c)) = c`. -/
def respCodeIn4xx (e : RawError) : Bool :=
  match respCode e with
  | some c => decide (c ≠ 0) && decide (400 ≤ c) && decide (c ≤ 499)
  | none => false

/-- `typeof error.code === 'number' && 400 <= error.code <= 499`
(lines 218-222). -/
def codeNumIn4xx (e : RawError) : Bool :=
  match codeNum e with
  | some n => decide (400 ≤ n) && decide (n ≤ 499)
  | none => false

/-- The fixed transient-pattern list (lines 225-234). -/
def retryablePatterns : List String :=
  ["network", "timeout", "econnrefused", "econnreset", "etimedout",
   "temporary failure", "connection timeout", "socket hang up"]

/-- `retryablePatterns.some(pattern => errorString.includes(pattern))`. -/
def hasTransientPattern (s : String) : Bool :=
  retryablePatterns.any (fun p => containsStr s p)

/-- `isRetryableError(error)` (lines 195-237). The falsy guard at line
196 precedes every property access, so the function is total. A matched
`\b4\d\d\b` token always parses to a number in 400..499, so the explicit
range test at line 205 always succeeds and is folded into the token
match. -/
def isRetryableError (e : RawError) : Bool :=
  if !truthy e then false
  else
    let s := toLowerStr (jsString e)
    if hasToken4xx s then true
    else if respCodeIn4xx e then true
    else if codeNumIn4xx e then true
    else hasTransientPattern s

/- ## Transport and retry scheduler (`sendWithRetry`, lines 143-193) -/

/-- Outcome of one `transporter.sendMail` invocation: resolution with a
message id, or rejection with a raw error value. -/
inductive SendOutcome where
  | ok (messageId : String)
  | err (e : RawError)
deriving DecidableEq

/-- Synchronous events of one `sendEmail` call, in program order. The
detached oversight notification is not awaited, so its work is ordered
after `resultReturned`. -/
inductive Event where
  | transportSend (attempt : Nat)
  | sleepDelay (ms : Nat)
  | auditAppend
  | notifyScheduled
  | resultReturned
  | notifyRun
deriving DecidableEq

/-- The object literal `sendWithRetry` resolves with. -/
structure RetryResult where
  success : Bool
  messageId : Option String := none
  error : Option String := none
  retryCount : Nat
  errorCategory : Option String := none
deriving DecidableEq

/-- `sendWithRetry`'s result plus its observable effects: backoff delays
(ms, in order), number of `transporter.sendMail` calls, and the event
sequence. -/
structure RetryTrace where
  result : RetryResult
  sleeps : List Nat := []
  calls : Nat := 0
  events : List Event := []
deriving DecidableEq

/-- The service state `sendWithRetry` reads: `dev` is
`isDevelopmentMode` (the constructor makes `transporter === null` iff
`dev`, so the guard `isDevelopmentMode || !transporter` is `dev`),
`transport i` the outcome of the i-th `sendMail` call of this delivery,
`now` the `Date.now()` clock, `env` the SMTP environment strings. -/
structure ServiceCfg where
  dev : Bool
  transport : Nat → SendOutcome
  now : Nat
  env : SmtpEnv

/-- `sendWithRetry(mailOptions, maxRetries, attempt)` (lines 143-193).
`Except.error ()` models a rejection escaping `sendWithRetry` itself,
which happens exactly when `categorizeError` throws at line 169 (nullish
rejection value). -/
def sendWithRetry (cfg : ServiceCfg) (maxRetries : Nat) (attempt : Nat) :
    Except Unit RetryTrace :=
  if cfg.dev then
    .ok { result := { success := true,
                      messageId := some ("dev-mode-" ++ toString cfg.now),
                      retryCount := 0 } }
  else
    match cfg.transport attempt with
    | .ok mid =>
      .ok { result := { success := true, messageId := some mid, retryCount := attempt - 1 },
            calls := 1, events := [.transportSend attempt] }
    | .err e =>
      match categorizeError e with
      | none => .error ()
      | some errorCategory =>
        let errorDetails := getErrorDetails cfg.env e errorCategory
        if h : isRetryableError e = true ∧ attempt < maxRetries then
          let delayMs := 2 ^ (attempt - 1) * 1000
          match sendWithRetry cfg maxRetries (attempt + 1) with
          | .ok t =>
            .ok { t with sleeps := delayMs :: t.sleeps,
                         calls := t.calls + 1,
                         events := .transportSend attempt :: .sleepDelay delayMs :: t.events }
          | .error u => .error u
        else
          .ok { result := { success := false, error := some errorDetails,
                            retryCount := attempt - 1,
                            errorCategory := some errorCategory },
                calls := 1, events := [.transportSend attempt] }
termination_by maxRetries - attempt
decreasing_by exact Nat.sub_succ_lt_self maxRetries attempt h.2

/- ## Oversight notifier (`notifySuperAdmin`, lines 378-422) -/

/-- A directory user, exposing the fields the notifier reads.
`email = none` models an absent field; `some ""` is also falsy in the
`!superadmin.email` test. -/
structure User where
  role : String
  email : Option String := none
deriving DecidableEq

/-- JS truthiness of the `email` field. -/
def emailTruthy : Option String → Bool
  | none => false
  | some s => decide (s ≠ "")

/-- `superadmins.find(u => u.role === 'super_admin')`. -/
def findSuperAdmin (users : List User) : Option User :=
  users.find? (fun u => u.role = "super_admin")

/-- Observable effects of one `notifySuperAdmin` call: number of direct
`transporter.sendMail` attempts, whether the no-superadmin warning was
logged, whether the outer `catch` swallowed an error. The whole body is
inside `try`/`catch`, so the call always returns normally. -/
structure NotifyTrace where
  sends : Nat := 0
  warnedNoAdmin : Bool := false
  caught : Bool := false
deriving DecidableEq

/-- Collaborator state of one `sendEmail` call: the service state plus
the audit store (`auditFails`: `storage.createEmailLog` rejects), the
directory (`getUsersFails`: `storage.getUsers()` rejects; `users`: its
result), and the outcome of the direct notification send. -/
structure World extends ServiceCfg where
  auditFails : Bool := false
  getUsersFails : Bool := false
  users : List User := []
  notifySend : SendOutcome := .ok "notify-id"

/-- `notifySuperAdmin(...)` (lines 378-422). The message-content
arguments (emailType, recipient, event name, details) feed only the
rendered subject/html and are dropped from the model. -/
def notifySuperAdmin (w : World) : NotifyTrace :=
  if w.getUsersFails then { caught := true }
  else
    match findSuperAdmin w.users with
    | none => { warnedNoAdmin := true }
    | some sa =>
      if !emailTruthy sa.email then { warnedNoAdmin := true }
      else if w.dev then {}
      else
        match w.notifySend with
        | .ok _ => { sends := 1 }
        | .err _ => { sends := 1, caught := true }

/- ## Delivery orchestrator (`sendEmail`, lines 239-296) -/

/-- The `options` argument of `sendEmail`; `metadata` is an open
string-keyed mapping, modelled as an association list. -/
structure EmailOptions where
  toAddr : String
  subject : String
  html : String
  metadata : Option (List (String × String)) := none
deriving DecidableEq

/-- The record handed to `storage.createEmailLog` (lines 260-268). -/
structure EmailLogEntry where
  recipientEmail : String
  recipientName : Option String
  subject : String
  templateType : String
  status : String
  metadata : List (String × String)
  errorMessage : Option String
deriving DecidableEq

/-- Result and observable effects of one `sendEmail` call. `result` is
the value returned to the caller; `auditAttempts` the records passed to
`storage.createEmailLog`; `auditStored` whether the append succeeded;
`notifyInvocations` the number of `notifySuperAdmin` calls; `events`
the synchronous event order, detached notification work after
`resultReturned`. -/
structure SendTrace where
  result : RetryResult
  auditAttempts : List EmailLogEntry
  auditStored : Bool
  calls : Nat
  sleeps : List Nat
  notifyInvocations : Nat
  notifyTrace : Option NotifyTrace
  events : List Event
deriving DecidableEq

/-- `result.error || null`: the empty string is falsy. -/
def orNull : Option String → Option String
  | some s => if s = "" then none else some s
  | none => none

/-- The `createEmailLog` argument object (lines 260-268): audit-record
fields derived from the options, the template type and the retry
result; the metadata spread adds the consumed `retryCount`. -/
def auditEntry (options : EmailOptions) (templateType : String)
    (recipientName : Option String) (result : RetryResult) : EmailLogEntry :=
  { recipientEmail := options.toAddr,
    recipientName := recipientName,
    subject := options.subject,
    templateType := templateType,
    status := if result.success then "sent" else "failed",
    metadata := (options.metadata.getD []) ++ [("retryCount", toString result.retryCount)],
    errorMessage := orNull result.error }

/-- `sendEmail(options, templateType, recipientName)` (lines 239-296).
The `mailOptions` from-address (line 245) only feeds the abstract
transport and is dropped. The audit append is wrapped in `try`/`catch`
(lines 259-271); `notifySuperAdmin` is invoked without `await` and with
`.catch` (lines 282-290), only in the success branch. -/
def sendEmail (w : World) (options : EmailOptions) (templateType : String)
    (recipientName : Option String) : Except Unit SendTrace :=
  match sendWithRetry w.toServiceCfg 3 1 with
  | .error u => .error u
  | .ok t =>
    let result := t.result
    let entry := auditEntry options templateType recipientName result
    if result.success then
      .ok { result := result,
            auditAttempts := [entry],
            auditStored := !w.auditFails,
            calls := t.calls,
            sleeps := t.sleeps,
            notifyInvocations := 1,
            notifyTrace := some (notifySuperAdmin w),
            events := t.events ++ [.auditAppend, .notifyScheduled, .resultReturned, .notifyRun] }
    else
      .ok { result := result,
            auditAttempts := [entry],
            auditStored := !w.auditFails,
            calls := t.calls,
            sleeps := t.sleeps,
            notifyInvocations := 0,
            notifyTrace := none,
            events := t.events ++ [.auditAppend, .resultReturned] }

/-- Modelled from the spec: the external template renderer
`generateRegistrationApprovedEmail` (module `../templates/emailTemplates`
is not part of the analysed sources). The spec specifies it as pure
string building with no decision logic; its output only fills the html
body, so any injective rendering is adequate. -/
def generateRegistrationApprovedEmail (name eventName username password : String) : String :=
  String.intercalate ":" ["registration_approved", name, eventName, username, password]

/-- `sendRegistrationApproved(to, name, eventName, username, password)`
(lines 298-316). -/
def sendRegistrationApproved (w : World) (toAddr name eventName username password : String) :
    Except Unit SendTrace :=
  sendEmail w
    { toAddr := toAddr,
      subject := "Registration Approved - " ++ eventName,
      html := generateRegistrationApprovedEmail name eventName username password,
      metadata := some [("eventName", eventName), ("username", username)] }
    "registration_approved" (some name)

/- ## Helper lemmas -/

/-- An event emitted inside the retry loop: a transport call or a
backoff sleep. -/
def retryEvent : Event → Bool
  | .transportSend _ => true
  | .sleepDelay _ => true
  | _ => false

/-- On non-nullish input the classifier's property access succeeds, so
some category is produced. -/
lemma categorize_isSome (e : RawError) (h : nullish e = false) :
    ∃ c, categorizeError e = some c := by
  simp only [categorizeError, h, Bool.false_eq_true, if_false]
  split_ifs <;> exact ⟨_, rfl⟩

/-- A retryable error passed the falsy guard. -/
lemma retryable_truthy (e : RawError) (h : isRetryableError e = true) :
    truthy e = true := by
  cases ht : truthy e
  · simp [isRetryableError, ht] at h
  · rfl

/-- A truthy value is not `null`/`undefined`. -/
lemma truthy_nonnullish (e : RawError) (h : truthy e = true) :
    nullish e = false := by
  cases e <;> simp_all [truthy, nullish]

/-- A lowercased text containing a `\b4\d\d\b` token is non-empty, so
its carrier value is truthy. -/
lemma token4_truthy (e : RawError)
    (h : hasToken4xx (toLowerStr (jsString e)) = true) : truthy e = true := by
  cases e
  case vnull => exact absurd h (by decide)
  case vundefined => exact absurd h (by decide)
  case vbool b => cases b
                  · exact absurd h (by decide)
                  · rfl
  case vstr s =>
    by_cases hs : s = ""
    · subst hs; exact absurd h (by decide)
    · simp [truthy, hs]
  case vnum n =>
    by_cases hn : n = 0
    · subst hn; exact absurd h (by decide)
    · simp [truthy, hn]
  case vobj o => rfl

/-- Only an object carries a `responseCode`, and objects are truthy. -/
lemma respIn4xx_truthy (e : RawError) (h : respCodeIn4xx e = true) :
    truthy e = true := by
  cases e <;> simp_all [respCodeIn4xx, respCode, truthy]

/-- Only an object carries a numeric `code`, and objects are truthy. -/
lemma codeIn4xx_truthy (e : RawError) (h : codeNumIn4xx e = true) :
    truthy e = true := by
  cases e <;> simp_all [codeNumIn4xx, codeNum, truthy]

/- ## C1 -/

/-- C1, counterexample: the claim says every raw error whose structured
code lies in 500-599 is never retried, but an error with
`responseCode = 550` whose text contains the transient pattern
"timeout" is classified retryable by `isRetryableError` (the pattern
fallback runs regardless of the 5xx code). -/
theorem c1_counterexample :
    respCode (.vobj { str := "smtp error: connection timeout", responseCode := some 550 }) =
      some 550 ∧
    isRetryableError (.vobj { str := "smtp error: connection timeout", responseCode := some 550 }) =
      true := by
  exact ⟨rfl, by decide⟩

/-- C1, amended: every raw error whose lowercased text carries a
`\b4\d\d\b` token, or whose `responseCode`/numeric `code` field lies in
400-499, is retryable; and an error whose structured code lies in
500-599 or whose text matches an authentication pattern is not
retryable, provided its text carries no 4xx token, its structured
fields are not in 400-499, and its text matches none of the fixed
transient patterns. -/
theorem c1_retryable_amended (e : RawError) :
    (hasToken4xx (toLowerStr (jsString e)) = true ∨ respCodeIn4xx e = true ∨
        codeNumIn4xx e = true →
      isRetryableError e = true) ∧
    ((∃ c, respCode e = some c ∧ 500 ≤ c ∧ c ≤ 599) ∨
        authRule (toLowerStr (jsString e)) = true →
      hasToken4xx (toLowerStr (jsString e)) = false →
      respCodeIn4xx e = false → codeNumIn4xx e = false →
      hasTransientPattern (toLowerStr (jsString e)) = false →
      isRetryableError e = false) := by
  constructor
  · rintro (h | h | h)
    · have ht := token4_truthy e h
      simp [isRetryableError, ht, h]
    · have ht := respIn4xx_truthy e h
      simp [isRetryableError, ht, h]
    · have ht := codeIn4xx_truthy e h
      simp [isRetryableError, ht, h]
  · intro _hpre h4 hresp hcode hpat
    cases ht : truthy e
    · simp [isRetryableError, ht]
    · simp [isRetryableError, ht, h4, hresp, hcode, hpat]

/-- C1 witness: a textual 421 error is retryable; a 550-coded
invalid-login error is not. -/
theorem c1_retryable_amended_witness :
    isRetryableError (.vstr "error 421 try later") = true ∧
    isRetryableError (.vobj { str := "smtp error: invalid login", responseCode := some 550 }) =
      false := by
  constructor
  · exact (c1_retryable_amended (.vstr "error 421 try later")).1 (Or.inl (by decide))
  · exact (c1_retryable_amended
      (.vobj { str := "smtp error: invalid login", responseCode := some 550 })).2
      (Or.inl ⟨550, by decide⟩) (by decide) (by decide) (by decide) (by decide)

/- ## C10 -/

/-- C10: every falsy raw error (null, undefined, empty string, 0,
false) is reported non-retryable by the falsy guard, which makes
`isRetryableError` return normally even on the nullish inputs where
`categorizeError` throws (models as `none`). -/
theorem c10_falsy_guard (e : RawError) (h : truthy e = false) :
    isRetryableError e = false ∧
    ((e = .vnull ∨ e = .vundefined) → categorizeError e = none) := by
  constructor
  · simp [isRetryableError, h]
  · rintro (rfl | rfl) <;> decide

/-- C10 witness: at `null`, retryability is false while the classifier
faults. -/
theorem c10_falsy_guard_witness :
    isRetryableError RawError.vnull = false ∧ categorizeError RawError.vnull = none :=
  ⟨(c10_falsy_guard RawError.vnull rfl).1,
   (c10_falsy_guard RawError.vnull rfl).2 (Or.inl rfl)⟩

/- ## C5 -/

/-- C5: in Live mode, a non-retryable (permanent) transport failure on
the first attempt makes `sendWithRetry` return the failure with
`retryCount = 0` and no backoff sleep. -/
theorem c5_permanent_failure (cfg : ServiceCfg) (e : RawError)
    (hlive : cfg.dev = false) (he : cfg.transport 1 = .err e)
    (hperm : isRetryableError e = false) (hnn : nullish e = false) :
    ∃ t, sendWithRetry cfg 3 1 = .ok t ∧ t.result.success = false ∧
      t.result.retryCount = 0 ∧ t.sleeps = [] := by
  obtain ⟨c, hc⟩ := categorize_isSome e hnn
  unfold sendWithRetry
  simp only [hlive, Bool.false_eq_true, if_false, he, hc, hperm]
  exact ⟨_, rfl, rfl, rfl, rfl⟩

/-- C5 witness: a 550 permanent failure is not retried. -/
theorem c5_permanent_failure_witness :
    ∃ t, sendWithRetry
        { dev := false,
          transport := fun _ => .err (.vobj { str := "550 mailbox unavailable", responseCode := some 550 }),
          now := 0, env := {} } 3 1 = .ok t ∧
      t.result.success = false ∧ t.result.retryCount = 0 ∧ t.sleeps = [] :=
  c5_permanent_failure _ (.vobj { str := "550 mailbox unavailable", responseCode := some 550 })
    rfl rfl (by decide) rfl

/- ## C6 -/

/-- C6, counterexample: the claim says `categorizeError` is total over
all inputs including null/undefined, but on those inputs the
`error.responseCode` access throws a `TypeError` (modelled `none`). -/
theorem c6_counterexample :
    categorizeError RawError.vnull = none ∧ categorizeError RawError.vundefined = none := by
  decide

/-- C6, amended: on every non-nullish input `categorizeError` returns
some category, falling back to `UNKNOWN_ERROR` when no rule matches; a
truthy `responseCode` in 400-599 or a textual `\b5\d\d\b` token maps to
the protocol-error category when no earlier textual rule matched, and
the authentication rule takes priority over everything. -/
theorem c6_classifier_amended (e : RawError) (h : nullish e = false) :
    (∃ c, categorizeError e = some c) ∧
    (authRule (toLowerStr (jsString e)) = true →
      categorizeError e = some "AUTHENTICATION_FAILED") ∧
    (anyTextRule (toLowerStr (jsString e)) = false →
      ((∃ c, respCode e = some c ∧ 400 ≤ c ∧ c ≤ 599) ∨
        hasToken5xx (toLowerStr (jsString e)) = true) →
      categorizeError e = some "SMTP_PROTOCOL_ERROR") ∧
    (anyTextRule (toLowerStr (jsString e)) = false → respCodeTruthy e = false →
      hasToken5xx (toLowerStr (jsString e)) = false →
      categorizeError e = some "UNKNOWN_ERROR") := by
  refine ⟨categorize_isSome e h, ?_, ?_, ?_⟩
  · intro ha
    simp only [categorizeError, ha, if_true]
  · intro hall hpe
    simp only [anyTextRule, Bool.or_eq_false_iff] at hall
    obtain ⟨⟨⟨⟨⟨⟨⟨h1, h2⟩, h3⟩, h4⟩, h5⟩, h6⟩, h7⟩, h8⟩ := hall
    have hrc : (respCodeTruthy e || hasToken5xx (toLowerStr (jsString e))) = true := by
      rcases hpe with ⟨c, hc, hc4, _⟩ | ht5
      · have : respCodeTruthy e = true := by
          simp only [respCodeTruthy, hc, decide_eq_true_eq]
          omega
        simp [this]
      · simp [ht5]
    simp only [categorizeError, h1, h2, h3, h4, h5, h6, h7, h8, h,
      Bool.false_eq_true, if_false, hrc, if_true]
  · intro hall hrc ht5
    simp only [anyTextRule, Bool.or_eq_false_iff] at hall
    obtain ⟨⟨⟨⟨⟨⟨⟨h1, h2⟩, h3⟩, h4⟩, h5⟩, h6⟩, h7⟩, h8⟩ := hall
    simp only [categorizeError, h1, h2, h3, h4, h5, h6, h7, h8, h, hrc, ht5,
      Bool.false_eq_true, Bool.or_self, if_false]

/-- C6 witness: a 421-coded error with unmatched text classifies as
protocol error; a plain unmatched text falls back to unknown. -/
theorem c6_classifier_amended_witness :
    categorizeError (.vobj { str := "boom", responseCode := some 421 }) =
      some "SMTP_PROTOCOL_ERROR" ∧
    categorizeError (.vstr "weird") = some "UNKNOWN_ERROR" := by
  constructor
  · exact (c6_classifier_amended (.vobj { str := "boom", responseCode := some 421 }) rfl).2.2.1
      (by decide) (Or.inl ⟨421, by decide⟩)
  · exact (c6_classifier_amended (.vstr "weird") rfl).2.2.2 (by decide) (by decide) (by decide)

/- ## Unfolding lemmas for the retry scheduler -/

/-- Logged (development) mode short-circuits before any transport call:
synthesized `dev-mode-` id, `retryCount = 0`, no events. -/
lemma sendWithRetry_dev (cfg : ServiceCfg) (hdev : cfg.dev = true)
    (maxRetries attempt : Nat) :
    sendWithRetry cfg maxRetries attempt =
      .ok { result := { success := true,
                        messageId := some ("dev-mode-" ++ toString cfg.now),
                        retryCount := 0 } } := by
  unfold sendWithRetry
  simp [hdev]

/-- Live mode, the attempt-th transport call resolves. -/
lemma sendWithRetry_live_ok (cfg : ServiceCfg) (hdev : cfg.dev = false)
    (maxRetries attempt : Nat) (mid : String)
    (h : cfg.transport attempt = .ok mid) :
    sendWithRetry cfg maxRetries attempt =
      .ok { result := { success := true, messageId := some mid, retryCount := attempt - 1 },
            calls := 1, events := [.transportSend attempt] } := by
  unfold sendWithRetry
  simp [hdev, h]

/-- Live mode, retryable rejection with attempts left: sleep
`2^(attempt-1)` seconds and recurse on `attempt + 1`. -/
lemma sendWithRetry_live_retry (cfg : ServiceCfg) (hdev : cfg.dev = false)
    (maxRetries attempt : Nat) (e : RawError) (c : String)
    (he : cfg.transport attempt = .err e) (hc : categorizeError e = some c)
    (hr : isRetryableError e = true) (ha : attempt < maxRetries) :
    sendWithRetry cfg maxRetries attempt =
      match sendWithRetry cfg maxRetries (attempt + 1) with
      | .ok t =>
        .ok { t with sleeps := 2 ^ (attempt - 1) * 1000 :: t.sleeps,
                     calls := t.calls + 1,
                     events := .transportSend attempt ::
                       .sleepDelay (2 ^ (attempt - 1) * 1000) :: t.events }
      | .error u => .error u := by
  conv_lhs => rw [sendWithRetry]
  simp [hdev, he, hc, hr, ha]

/-- Live mode, rejection with no retry (permanent error or attempts
exhausted): failure carrying the category and diagnostic. -/
lemma sendWithRetry_live_fail (cfg : ServiceCfg) (hdev : cfg.dev = false)
    (maxRetries attempt : Nat) (e : RawError) (c : String)
    (he : cfg.transport attempt = .err e) (hc : categorizeError e = some c)
    (hstop : ¬(isRetryableError e = true ∧ attempt < maxRetries)) :
    sendWithRetry cfg maxRetries attempt =
      .ok { result := { success := false,
                        error := some (getErrorDetails cfg.env e c),
                        retryCount := attempt - 1,
                        errorCategory := some c },
            calls := 1, events := [.transportSend attempt] } := by
  unfold sendWithRetry
  simp [hdev, he, hc, hstop]

/-- Master lemma: when every transport rejection value is non-nullish,
`sendWithRetry` with the orchestrator's arguments (`maxRetries = 3`,
first attempt) returns normally, and every event it emits is a
transport call or a backoff sleep. -/
lemma sendWithRetry_ok (cfg : ServiceCfg)
    (herr : ∀ i e, cfg.transport i = .err e → nullish e = false) :
    ∃ t, sendWithRetry cfg 3 1 = .ok t ∧ t.events.all retryEvent = true := by
  by_cases hdev : cfg.dev = true
  · exact ⟨_, sendWithRetry_dev cfg hdev 3 1, rfl⟩
  · have hdev' : cfg.dev = false := by
      cases hb : cfg.dev
      · rfl
      · exact absurd hb hdev
    cases h1 : cfg.transport 1 with
    | ok mid => exact ⟨_, sendWithRetry_live_ok cfg hdev' 3 1 mid h1, rfl⟩
    | err e1 =>
      obtain ⟨c1, hc1⟩ := categorize_isSome e1 (herr 1 e1 h1)
      by_cases hr1 : isRetryableError e1 = true
      · rw [sendWithRetry_live_retry cfg hdev' 3 1 e1 c1 h1 hc1 hr1 (by omega)]
        cases h2 : cfg.transport 2 with
        | ok mid =>
          rw [sendWithRetry_live_ok cfg hdev' 3 2 mid h2]
          exact ⟨_, rfl, rfl⟩
        | err e2 =>
          obtain ⟨c2, hc2⟩ := categorize_isSome e2 (herr 2 e2 h2)
          by_cases hr2 : isRetryableError e2 = true
          · rw [sendWithRetry_live_retry cfg hdev' 3 2 e2 c2 h2 hc2 hr2 (by omega)]
            cases h3 : cfg.transport 3 with
            | ok mid =>
              rw [sendWithRetry_live_ok cfg hdev' 3 3 mid h3]
              exact ⟨_, rfl, rfl⟩
            | err e3 =>
              obtain ⟨c3, hc3⟩ := categorize_isSome e3 (herr 3 e3 h3)
              rw [sendWithRetry_live_fail cfg hdev' 3 3 e3 c3 h3 hc3 (by omega)]
              exact ⟨_, rfl, rfl⟩
          · rw [sendWithRetry_live_fail cfg hdev' 3 2 e2 c2 h2 hc2 (by tauto)]
            exact ⟨_, rfl, rfl⟩
      · rw [sendWithRetry_live_fail cfg hdev' 3 1 e1 c1 h1 hc1 (by tauto)]
        exact ⟨_, rfl, rfl⟩

/-- When the retry phase resolved successfully, `sendEmail` appends one
`sent` audit record, invokes the oversight notifier once, and returns
the retry result; audit append and notifier scheduling precede the
return event, the detached notifier work follows it. -/
lemma sendEmail_success_spec (w : World) (o : EmailOptions) (tt : String)
    (rn : Option String) (t : RetryTrace)
    (h : sendWithRetry w.toServiceCfg 3 1 = .ok t) (hs : t.result.success = true) :
    sendEmail w o tt rn =
      .ok { result := t.result,
            auditAttempts := [auditEntry o tt rn t.result],
            auditStored := !w.auditFails,
            calls := t.calls,
            sleeps := t.sleeps,
            notifyInvocations := 1,
            notifyTrace := some (notifySuperAdmin w),
            events := t.events ++ [.auditAppend, .notifyScheduled, .resultReturned, .notifyRun] } := by
  simp only [sendEmail, h, hs, if_true]

/-- When the retry phase exhausted or hit a permanent failure,
`sendEmail` appends one `failed` audit record, never invokes the
oversight notifier, and returns the retry result. -/
lemma sendEmail_failure_spec (w : World) (o : EmailOptions) (tt : String)
    (rn : Option String) (t : RetryTrace)
    (h : sendWithRetry w.toServiceCfg 3 1 = .ok t) (hs : t.result.success = false) :
    sendEmail w o tt rn =
      .ok { result := t.result,
            auditAttempts := [auditEntry o tt rn t.result],
            auditStored := !w.auditFails,
            calls := t.calls,
            sleeps := t.sleeps,
            notifyInvocations := 0,
            notifyTrace := none,
            events := t.events ++ [.auditAppend, .resultReturned] } := by
  simp only [sendEmail, h, hs, Bool.false_eq_true, if_false]

/-- A synthesized `dev-mode-` identifier is never the empty string. -/
lemma devModeId_ne_empty (x : String) : ("dev-mode-" ++ x) ≠ "" := by
  intro hcontra
  have hlen := congrArg String.length hcontra
  rw [String.length_append] at hlen
  have h9 : String.length "dev-mode-" = 9 := rfl
  have h0 : String.length "" = 0 := rfl
  rw [h9, h0] at hlen
  omega

/-- In development mode the notifier path performs no transport send. -/
lemma notifySuperAdmin_dev_sends (w : World) (hdev : w.dev = true) :
    (notifySuperAdmin w).sends = 0 := by
  unfold notifySuperAdmin
  cases hgu : w.getUsersFails
  · cases hf : findSuperAdmin w.users with
    | none => simp [hf]
    | some sa =>
      cases het : emailTruthy sa.email
      · simp [hf, het]
      · simp [hf, het, hdev]
  · simp [hgu]

/- ## C3 -/

/-- C3: in Live mode with `maxRetries = 3`: if the transport fails
retryably on attempts `1..k-1` and resolves on attempt `k ≤ 3`, the
scheduler returns success with `retryCount = k - 1` after backoff
sleeps of `2^(i-1)` seconds (1s, then 2s); if all three attempts fail
retryably, it returns failure with `retryCount = 2` carrying the last
failure's category, having slept 1s and 2s. -/
theorem c3_retry_backoff (cfg : ServiceCfg) (hlive : cfg.dev = false) :
    (∀ k, 1 ≤ k → k ≤ 3 → ∀ mid : String,
      (∀ i, 1 ≤ i → i < k → ∃ e, cfg.transport i = .err e ∧ isRetryableError e = true) →
      cfg.transport k = .ok mid →
      ∃ t, sendWithRetry cfg 3 1 = .ok t ∧ t.result.success = true ∧
        t.result.retryCount = k - 1 ∧
        t.sleeps = (List.range (k - 1)).map (fun i => 2 ^ i * 1000)) ∧
    ((∀ i, 1 ≤ i → i ≤ 3 → ∃ e, cfg.transport i = .err e ∧ isRetryableError e = true) →
      ∃ t e3, cfg.transport 3 = .err e3 ∧ sendWithRetry cfg 3 1 = .ok t ∧
        t.result.success = false ∧ t.result.retryCount = 2 ∧
        t.result.errorCategory = categorizeError e3 ∧
        t.sleeps = [1000, 2000]) := by
  constructor
  · intro k hk1 hk3 mid hfail hok
    interval_cases k
    · rw [sendWithRetry_live_ok cfg hlive 3 1 mid hok]
      exact ⟨_, rfl, rfl, rfl, rfl⟩
    · obtain ⟨e1, he1, hr1⟩ := hfail 1 (by omega) (by omega)
      obtain ⟨c1, hc1⟩ := categorize_isSome e1 (truthy_nonnullish e1 (retryable_truthy e1 hr1))
      rw [sendWithRetry_live_retry cfg hlive 3 1 e1 c1 he1 hc1 hr1 (by omega),
          sendWithRetry_live_ok cfg hlive 3 2 mid hok]
      exact ⟨_, rfl, rfl, rfl, rfl⟩
    · obtain ⟨e1, he1, hr1⟩ := hfail 1 (by omega) (by omega)
      obtain ⟨e2, he2, hr2⟩ := hfail 2 (by omega) (by omega)
      obtain ⟨c1, hc1⟩ := categorize_isSome e1 (truthy_nonnullish e1 (retryable_truthy e1 hr1))
      obtain ⟨c2, hc2⟩ := categorize_isSome e2 (truthy_nonnullish e2 (retryable_truthy e2 hr2))
      rw [sendWithRetry_live_retry cfg hlive 3 1 e1 c1 he1 hc1 hr1 (by omega),
          sendWithRetry_live_retry cfg hlive 3 2 e2 c2 he2 hc2 hr2 (by omega),
          sendWithRetry_live_ok cfg hlive 3 3 mid hok]
      exact ⟨_, rfl, rfl, rfl, rfl⟩
  · intro hfail
    obtain ⟨e1, he1, hr1⟩ := hfail 1 (by omega) (by omega)
    obtain ⟨e2, he2, hr2⟩ := hfail 2 (by omega) (by omega)
    obtain ⟨e3, he3, hr3⟩ := hfail 3 (by omega) (by omega)
    obtain ⟨c1, hc1⟩ := categorize_isSome e1 (truthy_nonnullish e1 (retryable_truthy e1 hr1))
    obtain ⟨c2, hc2⟩ := categorize_isSome e2 (truthy_nonnullish e2 (retryable_truthy e2 hr2))
    obtain ⟨c3, hc3⟩ := categorize_isSome e3 (truthy_nonnullish e3 (retryable_truthy e3 hr3))
    rw [sendWithRetry_live_retry cfg hlive 3 1 e1 c1 he1 hc1 hr1 (by omega),
        sendWithRetry_live_retry cfg hlive 3 2 e2 c2 he2 hc2 hr2 (by omega),
        sendWithRetry_live_fail cfg hlive 3 3 e3 c3 he3 hc3
          (fun hcontra => absurd hcontra.2 (by omega))]
    exact ⟨_, e3, he3, rfl, rfl, rfl, hc3.symm, rfl⟩

/-- A transient 421-coded rejection value. -/
def err421v : RawError := .vobj { str := "421 service busy, try again later", responseCode := some 421 }

/-- Transport behavior that rejects with 421 on the first two attempts
and resolves on the third. -/
def transport421 : Nat → SendOutcome :=
  fun i => if i ≤ 2 then .err err421v else .ok "mid3"

/-- Live configuration driving `transport421`. -/
def cfg421 : ServiceCfg := { dev := false, transport := transport421, now := 0, env := {} }

/-- Live configuration whose transport always rejects with 421. -/
def cfgAll421 : ServiceCfg :=
  { dev := false, transport := fun _ => .err err421v, now := 0, env := {} }

/-- C3 witness: two 421 failures then success gives retryCount 2 after
1s + 2s of backoff; three 421 failures exhaust the retries. -/
theorem c3_retry_backoff_witness :
    (∃ t, sendWithRetry cfg421 3 1 = .ok t ∧ t.result.success = true ∧
      t.result.retryCount = 2 ∧ t.sleeps = [1000, 2000]) ∧
    (∃ t e3, cfgAll421.transport 3 = .err e3 ∧ sendWithRetry cfgAll421 3 1 = .ok t ∧
      t.result.success = false ∧ t.result.retryCount = 2 ∧
      t.result.errorCategory = categorizeError e3 ∧ t.sleeps = [1000, 2000]) := by
  constructor
  · obtain ⟨t, h1, h2, h3, h4⟩ := (c3_retry_backoff cfg421 rfl).1 3 (by omega) (by omega) "mid3"
      (fun i hi1 hi3 => ⟨err421v, by
        show transport421 i = .err err421v
        simp only [transport421]
        rw [if_pos (show i ≤ 2 by omega)], by decide⟩)
      (by rfl)
    exact ⟨t, h1, h2, h3, h4.trans (by rfl)⟩
  · exact (c3_retry_backoff cfgAll421 rfl).2 (fun i _ _ => ⟨err421v, rfl, by decide⟩)

/- ## C4 -/

/-- C4: in Logged (development) mode, `sendRegistrationApproved`
resolves successfully for any input with a non-empty synthesized
messageId beginning with `dev-mode-`, `retryCount = 0`, zero transport
calls (including the notifier path), and exactly one audit record
with templateType `registration_approved` and status `sent`. -/
theorem c4_logged_mode (w : World) (hdev : w.dev = true)
    (toAddr name eventName username password : String) :
    ∃ tr, sendRegistrationApproved w toAddr name eventName username password = .ok tr ∧
      tr.result.success = true ∧
      tr.result.messageId = some ("dev-mode-" ++ toString w.now) ∧
      (∀ s, tr.result.messageId = some s → s ≠ "") ∧
      tr.result.retryCount = 0 ∧
      tr.calls = 0 ∧
      (∀ nt, tr.notifyTrace = some nt → nt.sends = 0) ∧
      tr.auditAttempts.length = 1 ∧
      ∀ r ∈ tr.auditAttempts, r.templateType = "registration_approved" ∧ r.status = "sent" := by
  have hret := sendWithRetry_dev w.toServiceCfg hdev 3 1
  unfold sendRegistrationApproved
  rw [sendEmail_success_spec w _ "registration_approved" (some name) _ hret rfl]
  refine ⟨_, rfl, rfl, rfl, ?_, rfl, rfl, ?_, rfl, ?_⟩
  · intro s hs
    injection hs with hs
    subst hs
    exact devModeId_ne_empty _
  · intro nt hnt
    injection hnt with hnt
    subst hnt
    exact notifySuperAdmin_dev_sends w hdev
  · intro r hr
    simp only [List.mem_singleton] at hr
    subst hr
    exact ⟨rfl, rfl⟩

/-- A development-mode world for concrete runs. -/
def wDev : World := { dev := true, transport := fun _ => .ok "unused", now := 5, env := {} }

/-- C4 witness: the Logged-mode registration-approved scenario. -/
theorem c4_logged_mode_witness :
    ∃ tr, sendRegistrationApproved wDev "a@x.com" "Ann" "5K Run" "ann1" "pw123" = .ok tr ∧
      tr.result.success = true ∧
      tr.result.messageId = some ("dev-mode-" ++ toString wDev.now) ∧
      (∀ s, tr.result.messageId = some s → s ≠ "") ∧
      tr.result.retryCount = 0 ∧
      tr.calls = 0 ∧
      (∀ nt, tr.notifyTrace = some nt → nt.sends = 0) ∧
      tr.auditAttempts.length = 1 ∧
      ∀ r ∈ tr.auditAttempts, r.templateType = "registration_approved" ∧ r.status = "sent" :=
  c4_logged_mode wDev rfl "a@x.com" "Ann" "5K Run" "ann1" "pw123"

/- ## C2 -/

/-- C2: for every message, when the transport's rejection values are
non-nullish, `sendEmail` returns normally, and the returned result is
unchanged under any behavior of the audit store, the user directory and
the notification transport (`w'` differs from `w` only in those
collaborators). -/
theorem c2_deliver_never_raises (w w' : World) (o : EmailOptions) (tt : String)
    (rn : Option String)
    (hsame : w'.toServiceCfg = w.toServiceCfg)
    (herr : ∀ i e, w.transport i = .err e → nullish e = false) :
    ∃ tr tr', sendEmail w o tt rn = .ok tr ∧ sendEmail w' o tt rn = .ok tr' ∧
      tr'.result = tr.result := by
  obtain ⟨t, ht, -⟩ := sendWithRetry_ok w.toServiceCfg herr
  have ht' : sendWithRetry w'.toServiceCfg 3 1 = .ok t := by rw [hsame]; exact ht
  cases hs : t.result.success
  · exact ⟨_, _, sendEmail_failure_spec w o tt rn t ht hs,
      sendEmail_failure_spec w' o tt rn t ht' hs, rfl⟩
  · exact ⟨_, _, sendEmail_success_spec w o tt rn t ht hs,
      sendEmail_success_spec w' o tt rn t ht' hs, rfl⟩

/-- A permanent 550-coded rejection value. -/
def err550v : RawError := .vobj { str := "550 mailbox unavailable", responseCode := some 550 }

/-- Live configuration whose transport always rejects with 550. -/
def cfg550 : ServiceCfg := { dev := false, transport := fun _ => .err err550v, now := 0, env := {} }

/-- A world over `cfg550` with healthy collaborators. -/
def wA : World := { toServiceCfg := cfg550 }

/-- The same service configuration with every collaborator failing:
audit store raises, directory raises, notification send rejects. -/
def wB : World :=
  { toServiceCfg := cfg550, auditFails := true, getUsersFails := true,
    notifySend := .err (.vstr "boom") }

/-- A fixed message for concrete runs. -/
def optsX : EmailOptions := { toAddr := "a@x.com", subject := "s", html := "h" }

/-- C2 witness: collaborator failures leave the caller-visible result
untouched. -/
theorem c2_deliver_never_raises_witness :
    ∃ tr tr', sendEmail wA optsX "tpl" none = .ok tr ∧
      sendEmail wB optsX "tpl" none = .ok tr' ∧ tr'.result = tr.result :=
  c2_deliver_never_raises wA wB optsX "tpl" none rfl
    (fun _ e h => by injection h with h2; rw [← h2]; rfl)

/- ## C7 -/

/-- C7, counterexample: the claim says the oversight notification is
scheduled regardless of the delivery outcome, but on a failed delivery
`sendEmail` takes the else-branch (line 291) and never invokes
`notifySuperAdmin`. -/
theorem c7_counterexample :
    ∃ tr, sendEmail wA optsX "tpl" none = .ok tr ∧
      tr.result.success = false ∧ tr.notifyInvocations = 0 := by
  have hc : categorizeError err550v = some "SMTP_PROTOCOL_ERROR" := by decide
  have hr : isRetryableError err550v = false := by decide
  have hfail := sendWithRetry_live_fail wA.toServiceCfg rfl 3 1 err550v
    "SMTP_PROTOCOL_ERROR" rfl hc (fun hco => Bool.noConfusion (hr.symm.trans hco.1))
  rw [sendEmail_failure_spec wA optsX "tpl" none _ hfail rfl]
  exact ⟨_, rfl, rfl, rfl⟩

/-- C7, amended: every `sendEmail` call makes exactly one audit-store
append attempt whose status is `sent` iff the returned success value is
true, and invokes the oversight notifier at most once — exactly when
the delivery succeeded (never on failure). -/
theorem c7_audit_notify_amended (w : World) (o : EmailOptions) (tt : String)
    (rn : Option String)
    (herr : ∀ i e, w.transport i = .err e → nullish e = false) :
    ∃ tr, sendEmail w o tt rn = .ok tr ∧
      tr.auditAttempts.length = 1 ∧
      (∀ r ∈ tr.auditAttempts, (r.status = "sent" ↔ tr.result.success = true)) ∧
      tr.notifyInvocations ≤ 1 ∧
      (tr.notifyInvocations = 1 ↔ tr.result.success = true) := by
  obtain ⟨t, ht, -⟩ := sendWithRetry_ok w.toServiceCfg herr
  cases hs : t.result.success
  · rw [sendEmail_failure_spec w o tt rn t ht hs]
    refine ⟨_, rfl, rfl, ?_, by simp, by simp [hs]⟩
    intro r hr
    simp only [List.mem_singleton] at hr
    subst hr
    simp [auditEntry, hs]
  · rw [sendEmail_success_spec w o tt rn t ht hs]
    refine ⟨_, rfl, rfl, ?_, by simp, by simp [hs]⟩
    intro r hr
    simp only [List.mem_singleton] at hr
    subst hr
    simp [auditEntry, hs]

/-- C7 witness: a Logged-mode (successful) delivery appends one `sent`
record and notifies exactly once. -/
theorem c7_audit_notify_amended_witness :
    ∃ tr, sendEmail wDev optsX "tpl" none = .ok tr ∧
      tr.auditAttempts.length = 1 ∧
      (∀ r ∈ tr.auditAttempts, (r.status = "sent" ↔ tr.result.success = true)) ∧
      tr.notifyInvocations ≤ 1 ∧
      (tr.notifyInvocations = 1 ↔ tr.result.success = true) :=
  c7_audit_notify_amended wDev optsX "tpl" none (fun _ _ h => nomatch h)

/- ## C8 -/

/-- C8, counterexample: the claim says neither the audit append nor the
notification adds latency before the result is returned, but the audit
append is awaited (line 260) before `return result` — in the
synchronous event order `auditAppend` occurs strictly before
`resultReturned`. -/
theorem c8_counterexample :
    ∃ tr, sendEmail wDev optsX "tpl" none = .ok tr ∧
      (tr.events.takeWhile (fun ev => !(ev == Event.resultReturned))).contains
        Event.auditAppend = true := by
  have hret := sendWithRetry_dev wDev.toServiceCfg rfl 3 1
  rw [sendEmail_success_spec wDev optsX "tpl" none _ hret rfl]
  exact ⟨_, rfl, rfl⟩

/-- C8, amended: within one `sendEmail` call the events are ordered:
first the retry phase (transport calls and sleeps), then the awaited
audit append, then — after at most the notifier scheduling — the
result return, and the detached oversight notification work runs only
after the result is returned. The audit append is awaited before the
caller-visible return; only the notification adds no latency. -/
theorem c8_ordering_amended (w : World) (o : EmailOptions) (tt : String)
    (rn : Option String)
    (herr : ∀ i e, w.transport i = .err e → nullish e = false) :
    ∃ tr pre mid tail, sendEmail w o tt rn = .ok tr ∧
      tr.events = pre ++ [Event.auditAppend] ++ mid ++ [Event.resultReturned] ++ tail ∧
      pre.all retryEvent = true ∧
      mid.all (fun ev => ev == Event.notifyScheduled) = true ∧
      tail.all (fun ev => ev == Event.notifyRun) = true := by
  obtain ⟨t, ht, hall⟩ := sendWithRetry_ok w.toServiceCfg herr
  cases hs : t.result.success
  · rw [sendEmail_failure_spec w o tt rn t ht hs]
    exact ⟨_, t.events, [], [], rfl, by simp, hall, rfl, rfl⟩
  · rw [sendEmail_success_spec w o tt rn t ht hs]
    exact ⟨_, t.events, [.notifyScheduled], [.notifyRun], rfl, by simp, hall, rfl, rfl⟩

/-- C8 witness: a failed Live-mode delivery exhibits the order
transport call, audit append, result return. -/
theorem c8_ordering_amended_witness :
    ∃ tr pre mid tail, sendEmail wA optsX "tpl" none = .ok tr ∧
      tr.events = pre ++ [Event.auditAppend] ++ mid ++ [Event.resultReturned] ++ tail ∧
      pre.all retryEvent = true ∧
      mid.all (fun ev => ev == Event.notifyScheduled) = true ∧
      tail.all (fun ev => ev == Event.notifyRun) = true :=
  c8_ordering_amended wA optsX "tpl" none
    (fun _ e h => by injection h with h2; rw [← h2]; rfl)

/- ## C9 -/

/-- C9: `notifySuperAdmin` never raises (it is a total function whose
body sits in `try`/`catch`): it performs at most one direct transport
send; when the directory lookup succeeds but no super_admin with a
truthy email exists it logs the warning and sends nothing; when the
directory raises the error is caught with nothing sent; and when the
single direct send rejects, the error is caught and the send is not
retried (still exactly one attempt). -/
theorem c9_oversight_silent (w : World) :
    (notifySuperAdmin w).sends ≤ 1 ∧
    (w.getUsersFails = false →
      (∀ sa, findSuperAdmin w.users = some sa → emailTruthy sa.email = false) →
      (notifySuperAdmin w).sends = 0 ∧ (notifySuperAdmin w).warnedNoAdmin = true) ∧
    (w.getUsersFails = true →
      (notifySuperAdmin w).sends = 0 ∧ (notifySuperAdmin w).caught = true) ∧
    (∀ e, w.getUsersFails = false → w.dev = false → w.notifySend = .err e →
      (∃ sa, findSuperAdmin w.users = some sa ∧ emailTruthy sa.email = true) →
      (notifySuperAdmin w).sends = 1 ∧ (notifySuperAdmin w).caught = true) := by
  refine ⟨?_, ?_, ?_, ?_⟩
  · unfold notifySuperAdmin
    cases hgu : w.getUsersFails
    · cases hf : findSuperAdmin w.users with
      | none => simp [hf]
      | some sa =>
        cases het : emailTruthy sa.email
        · simp [hf, het]
        · cases hdev : w.dev
          · cases hns : w.notifySend <;> simp [hf, het, hdev, hns]
          · simp [hf, het, hdev]
    · simp [hgu]
  · intro hgu hnone
    unfold notifySuperAdmin
    cases hf : findSuperAdmin w.users with
    | none => simp [hgu, hf]
    | some sa => simp [hgu, hf, hnone sa hf]
  · intro hgu
    unfold notifySuperAdmin
    simp [hgu]
  · rintro e hgu hdev hns ⟨sa, hf, het⟩
    unfold notifySuperAdmin
    simp [hgu, hf, het, hdev, hns]

/-- A world whose directory holds no oversight user. -/
def wNoAdmin : World :=
  { toServiceCfg := cfg550, users := [{ role := "participant", email := some "p@x.com" }] }

/-- A world with an oversight user but a rejecting notification send. -/
def wErrNotify : World :=
  { toServiceCfg := cfg550, users := [{ role := "super_admin", email := some "boss@x.com" }],
    notifySend := .err (.vstr "boom") }

/-- C9 witness: no oversight user warns and sends nothing; a rejecting
notification send is attempted once and caught. -/
theorem c9_oversight_silent_witness :
    ((notifySuperAdmin wNoAdmin).sends = 0 ∧ (notifySuperAdmin wNoAdmin).warnedNoAdmin = true) ∧
    ((notifySuperAdmin wErrNotify).sends = 1 ∧ (notifySuperAdmin wErrNotify).caught = true) :=
  ⟨(c9_oversight_silent wNoAdmin).2.1 rfl (fun sa h => nomatch h),
   (c9_oversight_silent wErrNotify).2.2.2 (.vstr "boom") rfl rfl rfl
     ⟨{ role := "super_admin", email := some "boss@x.com" }, rfl, by decide⟩⟩
